import Mathlib

/-!
Shallow embedding of the game engine in `src/snake_game.py` (class `SnakeGame`),
covering the per-tick update (`move_snake`, lines 738-813), collision detection
(`check_collision`, lines 815-832), constrained random placement
(`generate_food` 390-396, `generate_power_up` 398-416, `generate_obstacles`
418-430), the direction-input rule (`get_input`, lines 716-734) and the
per-iteration orchestration of `run` (lines 921-953).

Modelling conventions:
* cells are `(row, column)` pairs of integers, mirroring the Python lists
  `[y, x]`;
* `random.randint(a, b)` is modelled as `a + raw % (b - a + 1)` where `raw` is
  the next value of an explicit oracle stream, so every draw lies in `[a, b]`
  exactly as in Python;
* the unbounded `while True` placement loops consume a finite oracle list and
  return `none` once it is exhausted (the Python loop would keep retrying);
* the float `delay` arithmetic is modelled over `ℚ`;
* `random.random() < self.power_up_spawn_chance` is modelled as a Boolean
  oracle field, and `random.choice(power_up_types)` as an oracle field of the
  chosen kind.
-/

set_option maxRecDepth 40000

namespace SnakeGame

abbrev Cell := Int × Int

/-- Fixed arena geometry: `box_y`, `box_x`, `box_height`, `box_width` set in
`SnakeGame.__init__` (lines 350-353). -/
structure Cfg where
  boxY : Int
  boxX : Int
  boxHeight : Int
  boxWidth : Int
deriving DecidableEq

/-- The three power-up kinds of `power_up_types` (lines 400-404). -/
inductive PUType where
  | slow
  | boost
  | trap
deriving DecidableEq

/-- A power-up on the field: the dict
`{'type', 'duration', 'pos', 'timer'}` built in `generate_power_up`. -/
structure PowerUp where
  ptype : PUType
  duration : Int
  pos : Cell
  timer : Int
deriving DecidableEq

/-- The mutable game state of `SnakeGame` that `move_snake` reads and
writes: `snake`, `direction`, `food`, `score`, `level`,
`score_for_next_level`, `delay`, `base_delay`, `power_ups`,
`active_power_up`, `power_up_duration`, `obstacles`. -/
structure GameState where
  snake : List Cell
  direction : Cell
  food : Cell
  score : Int
  level : Int
  scoreForNextLevel : Int
  delay : ℚ
  baseDelay : ℚ
  powerUps : List PowerUp
  activePowerUp : Option PUType
  powerUpDuration : Int
  obstacles : List Cell
deriving DecidableEq

/-- The random draws one call to `move_snake` may consume. -/
structure Oracle where
  foodRaws : List (Int × Int)
  obstacleRaws : List (Int × Int)
  spawnRoll : Bool
  puType : PUType
  puRaws : List (Int × Int)

/-- `random.randint(a, b)`: a uniformly drawn integer in `[a, b]`, the draw
being determined by the oracle value `raw`. -/
def randint (a b raw : Int) : Int := a + raw % (b - a + 1)

/-- The arena interior of `§4.1`: strictly inside the border ring.  This is
the complement of the wall test of `check_collision` (lines 820-821). -/
def inInterior (g : Cfg) (c : Cell) : Prop :=
  g.boxY < c.1 ∧ c.1 < g.boxY + g.boxHeight - 1 ∧
  g.boxX < c.2 ∧ c.2 < g.boxX + g.boxWidth - 1

instance (g : Cfg) (c : Cell) : Decidable (inInterior g c) := by
  unfold inInterior; infer_instance

/-- `generate_food` (lines 390-396): draw interior cells until one avoids the
snake and the obstacles. -/
def generate_food (g : Cfg) (snake obstacles : List Cell) :
    List (Int × Int) → Option Cell
  | [] => none
  | (ry, rx) :: rest =>
    let c : Cell := (randint (g.boxY + 1) (g.boxY + g.boxHeight - 2) ry,
                     randint (g.boxX + 1) (g.boxX + g.boxWidth - 2) rx)
    if c ∉ snake ∧ c ∉ obstacles then some c
    else generate_food g snake obstacles rest

/-- The `duration` field of each entry of `power_up_types` (lines 400-404). -/
def puDuration : PUType → Int
  | .slow => 100
  | .boost => 50
  | .trap => 0

/-- `generate_power_up` (lines 398-416): draw interior cells until one avoids
the snake, the food, the obstacles and every existing power-up position; the
kind is a separate random choice. -/
def generate_power_up (g : Cfg) (snake : List Cell) (food : Cell)
    (obstacles : List Cell) (powerUps : List PowerUp) (ptype : PUType) :
    List (Int × Int) → Option PowerUp
  | [] => none
  | (ry, rx) :: rest =>
    let c : Cell := (randint (g.boxY + 1) (g.boxY + g.boxHeight - 2) ry,
                     randint (g.boxX + 1) (g.boxX + g.boxWidth - 2) rx)
    if c ∉ snake ∧ c ≠ food ∧ c ∉ obstacles ∧ ∀ pu ∈ powerUps, pu.pos ≠ c then
      some ⟨ptype, puDuration ptype, c, 200⟩
    else generate_power_up g snake food obstacles powerUps ptype rest

/-- One iteration of the inner `while True` of `generate_obstacles`
(lines 424-430): find the first oracle draw giving a fresh cell. -/
def placeObstacle (g : Cfg) (snake : List Cell) (food : Cell)
    (obstacles : List Cell) : List (Int × Int) → Option (Cell × List (Int × Int))
  | [] => none
  | (ry, rx) :: rest =>
    let c : Cell := (randint (g.boxY + 2) (g.boxY + g.boxHeight - 3) ry,
                     randint (g.boxX + 2) (g.boxX + g.boxWidth - 3) rx)
    if c ∉ snake ∧ c ≠ food ∧ c ∉ obstacles then some (c, rest)
    else placeObstacle g snake food obstacles rest

/-- The `for _ in range(obstacle_count)` loop of `generate_obstacles`, with
`acc` the obstacles appended so far (the list starts empty). -/
def obstaclesLoop (g : Cfg) (snake : List Cell) (food : Cell) :
    Nat → List Cell → List (Int × Int) → Option (List Cell)
  | 0, acc, _ => some acc
  | n + 1, acc, raws =>
    match placeObstacle g snake food acc raws with
    | none => none
    | some (c, rest) => obstaclesLoop g snake food n (acc ++ [c]) rest

/-- `generate_obstacles` (lines 418-430): `self.obstacles = []` followed by
`min(self.level - 1, 5)` placements, each avoiding the snake, the food and the
obstacles placed so far. -/
def generate_obstacles (g : Cfg) (snake : List Cell) (food : Cell)
    (level : Int) (raws : List (Int × Int)) : Option (List Cell) :=
  obstaclesLoop g snake food (min (level - 1) 5).toNat [] raws

/-- `check_collision` (lines 815-832): wall, then self (`head in
self.snake[1:]`), then obstacles. -/
def check_collision (g : Cfg) (snake obstacles : List Cell) : Bool :=
  match snake with
  | [] => false
  | head :: rest =>
    if head.1 ≤ g.boxY ∨ g.boxY + g.boxHeight - 1 ≤ head.1 ∨
       head.2 ≤ g.boxX ∨ g.boxX + g.boxWidth - 1 ≤ head.2 then true
    else if head ∈ rest then true
    else if head ∈ obstacles then true
    else false

/-- The power-up scan of `move_snake` (lines 747-752): remove the first
power-up whose `pos` equals the new head, keeping the order of the rest. -/
def findPowerUp (pos : Cell) : List PowerUp → Option (PowerUp × List PowerUp)
  | [] => none
  | pu :: rest =>
    if pu.pos = pos then some (pu, rest)
    else
      match findPowerUp pos rest with
      | none => none
      | some (f, rest') => some (f, pu :: rest')

/-- Result of `move_snake`: the Python function returns the string `'trap'`
or the boolean `ate_food`. -/
inductive MoveResult where
  | trapHit
  | moved (ateFood : Bool)
deriving DecidableEq

/-- Apply the removal decided by the power-up scan (line 751,
`self.power_ups.pop(i)`). -/
def dropPick (s : GameState) : Option (PowerUp × List PowerUp) → GameState
  | none => s
  | some (_, rest) => { s with powerUps := rest }

/-- `self.snake.pop()` on a no-food tick (line 777). -/
def popTail (s : GameState) : GameState := { s with snake := s.snake.dropLast }

/-- The `if ate_food:` block of `move_snake` (lines 754-774): award +10,
re-place the food, run the level check, maybe spawn a power-up, decay the
delay.  Each phase reads exactly the state the Python code reads at that
point: the level check sees the score after +10, the obstacle regeneration
sees the new food, the power-up spawn sees the new food and the new
obstacles. -/
def levelPhase (g : Cfg) (o : Oracle) (s : GameState) (newFood : Cell) :
    Option (Int × Int × List Cell) :=
  if s.scoreForNextLevel ≤ s.score + 10 then
    match generate_obstacles g s.snake newFood (s.level + 1) o.obstacleRaws with
    | none => none
    | some obs => some (s.level + 1, s.scoreForNextLevel + 50, obs)
  else some (s.level, s.scoreForNextLevel, s.obstacles)

/-- The power-up spawn chance of `move_snake` (lines 766-770). -/
def spawnPhase (g : Cfg) (o : Oracle) (s : GameState) (newFood : Cell)
    (obst1 : List Cell) : Option (List PowerUp) :=
  if o.spawnRoll then
    match generate_power_up g s.snake newFood obst1 s.powerUps o.puType
        o.puRaws with
    | none => none
    | some pu => some (s.powerUps ++ [pu])
  else some s.powerUps

/-- The whole `if ate_food:` branch (lines 754-774). -/
def eatFood (g : Cfg) (o : Oracle) (s : GameState) : Option GameState :=
  match generate_food g s.snake s.obstacles o.foodRaws with
  | none => none
  | some newFood =>
    match levelPhase g o s newFood with
    | none => none
    | some (level1, thresh1, obst1) =>
      match spawnPhase g o s newFood obst1 with
      | none => none
      | some pus2 =>
        some { s with
                score := s.score + 10
                food := newFood
                level := level1
                scoreForNextLevel := thresh1
                obstacles := obst1
                powerUps := pus2
                delay := if mkRat 5 100 < s.delay then s.delay * mkRat 98 100
                         else s.delay }

/-- The `slow`/`boost` arms of the power-up handling (lines 780-792):
`delay = base_delay * k`, set the active effect, load its duration, award the
score bonus. -/
def applyEff (s1 : GameState) (pu : PowerUp) : GameState :=
  match pu.ptype with
  | .slow =>
    { s1 with
        delay := s1.baseDelay * mkRat 3 2
        activePowerUp := some .slow
        powerUpDuration := pu.duration
        score := s1.score + 5 }
  | .boost =>
    { s1 with
        delay := s1.baseDelay * mkRat 1 2
        activePowerUp := some .boost
        powerUpDuration := pu.duration
        score := s1.score + 15 }
  | .trap => s1

/-- `power_up['timer'] -= 1` for every power-up on the field, removing those
that reach zero (lines 804-808). -/
def tickTimers (pus : List PowerUp) : List PowerUp :=
  (pus.map fun pu => { pu with timer := pu.timer - 1 }).filter
    fun pu => decide (0 < pu.timer)

/-- The tail of `move_snake` after the power-up arms (lines 797-811): count
down the active-effect duration, resetting `delay = base_delay` when it hits
zero; tick the field timers; prepend the new head. -/
def finishMove (s : GameState) (newHead : Cell) : GameState :=
  let stepped :=
    if 0 < s.powerUpDuration then
      if s.powerUpDuration - 1 = 0 then
        { s with
            powerUpDuration := s.powerUpDuration - 1
            activePowerUp := none
            delay := s.baseDelay }
      else { s with powerUpDuration := s.powerUpDuration - 1 }
    else s
  { stepped with
      powerUps := tickTimers stepped.powerUps
      snake := newHead :: stepped.snake }

/-- The power-up dispatch of `move_snake` (lines 779-795) followed by its
tail: a trap returns `'trap'` at once, before the duration update, the field
timers and the head insertion. -/
def afterEat (s1 : GameState) (pick : Option (PowerUp × List PowerUp))
    (nh : Cell) (ate : Bool) : GameState × MoveResult :=
  match pick with
  | some (pu, _) =>
    if pu.ptype = .trap then (s1, .trapHit)
    else (finishMove (applyEff s1 pu) nh, .moved ate)
  | none => (finishMove s1 nh, .moved ate)

/-- The food/no-food fork of `move_snake` (lines 744, 754-777), with the
power-up pick already made. -/
def moveCore (g : Cfg) (o : Oracle) (s : GameState) (nh : Cell)
    (pick : Option (PowerUp × List PowerUp)) : Option (GameState × MoveResult) :=
  if nh = s.food then
    match eatFood g o (dropPick s pick) with
    | none => none
    | some s1 => some (afterEat s1 pick nh true)
  else some (afterEat (popTail (dropPick s pick)) pick nh false)

/-- `move_snake` (lines 738-813).  Returns `none` when the snake is empty
(Python would raise on `self.snake[0]`) or when a placement oracle is
exhausted. -/
def move_snake (g : Cfg) (o : Oracle) (s : GameState) :
    Option (GameState × MoveResult) :=
  match s.snake with
  | [] => none
  | hd :: _ =>
    moveCore g o s (hd.1 + s.direction.1, hd.2 + s.direction.2)
      (findPowerUp (hd.1 + s.direction.1, hd.2 + s.direction.2) s.powerUps)

/-- The score bonus the power-up arms award (lines 786, 792): +5 for slow,
+15 for boost, nothing for a trap. -/
def puBonus : Option (PowerUp × List PowerUp) → Int
  | none => 0
  | some (pu, _) =>
    match pu.ptype with
    | .slow => 5
    | .boost => 15
    | .trap => 0

/-- Outcome of one iteration of the main loop of `run`. -/
inductive TickResult where
  | gameOver (final : GameState)
  | ongoing (s : GameState) (ateFood : Bool)
deriving DecidableEq

/-- One iteration of the game loop of `run` (lines 921-953): move, end the
run on `'trap'`, otherwise end it on a collision verdict. -/
def game_tick (g : Cfg) (o : Oracle) (s : GameState) : Option TickResult :=
  match move_snake g o s with
  | none => none
  | some (s', .trapHit) => some (.gameOver s')
  | some (s', .moved ate) =>
    if check_collision g s'.snake s'.obstacles then some (.gameOver s')
    else some (.ongoing s' ate)

def isGameOver : TickResult → Bool
  | .gameOver _ => true
  | .ongoing _ _ => false

def tickResultScore : TickResult → Int
  | .gameOver s => s.score
  | .ongoing s _ => s.score

def tickResultEffect : TickResult → Option PUType
  | .gameOver s => s.activePowerUp
  | .ongoing s _ => s.activePowerUp

/-- The four directional keys handled by `get_input`. -/
inductive Key where
  | up
  | down
  | left
  | right
deriving DecidableEq

/-- The direction vector each key requests (lines 718-734). -/
def keyDir : Key → Cell
  | .up => (-1, 0)
  | .down => (1, 0)
  | .left => (0, -1)
  | .right => (0, 1)

/-- The movement-control branch of `get_input` (lines 717-734): each key is
applied unless the current direction is its exact opposite. -/
def newDirection (current : Cell) (k : Key) : Cell :=
  match k with
  | .up => if current ≠ (1, 0) then (-1, 0) else current
  | .down => if current ≠ (-1, 0) then (1, 0) else current
  | .left => if current ≠ (0, 1) then (0, -1) else current
  | .right => if current ≠ (0, -1) then (0, 1) else current

/-! Concrete states used by the witnesses and counterexamples below.  The
arena is `box_y = box_x = 2`, `box_height = box_width = 10`, so the interior
rows and columns both range over `[3, 10]`. -/

def cfg0 : Cfg := ⟨2, 2, 10, 10⟩

/-- A fresh game: 3-cell snake moving right, default speed, no power-ups. -/
def baseState : GameState :=
  { snake := [(5, 5), (5, 4), (5, 3)]
    direction := (0, 1)
    food := (8, 8)
    score := 0
    level := 1
    scoreForNextLevel := 100
    delay := mkRat 3 20
    baseDelay := mkRat 3 20
    powerUps := []
    activePowerUp := none
    powerUpDuration := 0
    obstacles := [] }

def oEmpty : Oracle := ⟨[], [], false, .slow, []⟩

/-- Oracle whose first food draw lands on `(3, 3)` and whose first obstacle
draw lands on `(4, 4)`. -/
def oFood : Oracle := ⟨[(0, 0)], [(0, 0)], false, .slow, []⟩

/-- Food directly ahead of the head. -/
def stW2 : GameState := { baseState with food := (5, 6) }

/-- A slow effect one tick away from expiry, with a decayed delay. -/
def stW3 : GameState :=
  { baseState with activePowerUp := some .slow, powerUpDuration := 1,
                   delay := mkRat 9 40 }

/-- Ten points below the level threshold, food directly ahead. -/
def stW4 : GameState := { baseState with food := (5, 6), score := 90 }

/-- A trap power-up directly ahead, food elsewhere. -/
def stW5 : GameState :=
  { baseState with score := 7, powerUps := [⟨.trap, 0, (5, 6), 200⟩] }

/-- A snake curled so that the head's next cell is its own tail. -/
def stW10 : GameState :=
  { baseState with snake := [(5, 5), (5, 4), (4, 4), (4, 5)],
                   direction := (-1, 0) }

/-- Food and a trap power-up on the same cell, directly ahead: reachable
because `generate_food` does not exclude power-up cells. -/
def stC1 : GameState :=
  { baseState with food := (5, 6), powerUps := [⟨.trap, 0, (5, 6), 200⟩] }

/-- A boost power-up directly ahead while the base delay has decayed once:
`delay = (3/20) * (98/100) = 147/1000`. -/
def stC2 : GameState :=
  { baseState with delay := mkRat 147 1000, powerUps := [⟨.boost, 50, (5, 6), 200⟩] }

/-- Five points below the level threshold, a boost (+15) directly ahead. -/
def stC3 : GameState :=
  { baseState with score := 95, powerUps := [⟨.boost, 50, (5, 6), 200⟩] }

/-- A trap power-up directly ahead (food elsewhere). -/
def stC5 : GameState :=
  { baseState with powerUps := [⟨.trap, 0, (5, 6), 200⟩] }

def dummyState : GameState := { baseState with snake := [] }

/-- The state/result a successful concrete `move_snake` run produces. -/
def mvOut (g : Cfg) (o : Oracle) (s : GameState) : GameState × MoveResult :=
  (move_snake g o s).getD (dummyState, .moved false)

/-- The result a successful concrete `game_tick` run produces. -/
def tickOut (g : Cfg) (o : Oracle) (s : GameState) : TickResult :=
  (game_tick g o s).getD (.gameOver dummyState)

/-! Helper lemmas: field bookkeeping for the phases of `move_snake`. -/

@[simp] theorem dropPick_snake (s : GameState)
    (pick : Option (PowerUp × List PowerUp)) : (dropPick s pick).snake = s.snake := by
  cases pick with
  | none => rfl
  | some pr => obtain ⟨pu, rest⟩ := pr; rfl

@[simp] theorem dropPick_score (s : GameState)
    (pick : Option (PowerUp × List PowerUp)) : (dropPick s pick).score = s.score := by
  cases pick with
  | none => rfl
  | some pr => obtain ⟨pu, rest⟩ := pr; rfl

@[simp] theorem dropPick_food (s : GameState)
    (pick : Option (PowerUp × List PowerUp)) : (dropPick s pick).food = s.food := by
  cases pick with
  | none => rfl
  | some pr => obtain ⟨pu, rest⟩ := pr; rfl

@[simp] theorem dropPick_level (s : GameState)
    (pick : Option (PowerUp × List PowerUp)) : (dropPick s pick).level = s.level := by
  cases pick with
  | none => rfl
  | some pr => obtain ⟨pu, rest⟩ := pr; rfl

@[simp] theorem dropPick_thresh (s : GameState)
    (pick : Option (PowerUp × List PowerUp)) :
    (dropPick s pick).scoreForNextLevel = s.scoreForNextLevel := by
  cases pick with
  | none => rfl
  | some pr => obtain ⟨pu, rest⟩ := pr; rfl

@[simp] theorem dropPick_delay (s : GameState)
    (pick : Option (PowerUp × List PowerUp)) : (dropPick s pick).delay = s.delay := by
  cases pick with
  | none => rfl
  | some pr => obtain ⟨pu, rest⟩ := pr; rfl

@[simp] theorem dropPick_baseDelay (s : GameState)
    (pick : Option (PowerUp × List PowerUp)) :
    (dropPick s pick).baseDelay = s.baseDelay := by
  cases pick with
  | none => rfl
  | some pr => obtain ⟨pu, rest⟩ := pr; rfl

@[simp] theorem dropPick_active (s : GameState)
    (pick : Option (PowerUp × List PowerUp)) :
    (dropPick s pick).activePowerUp = s.activePowerUp := by
  cases pick with
  | none => rfl
  | some pr => obtain ⟨pu, rest⟩ := pr; rfl

@[simp] theorem dropPick_duration (s : GameState)
    (pick : Option (PowerUp × List PowerUp)) :
    (dropPick s pick).powerUpDuration = s.powerUpDuration := by
  cases pick with
  | none => rfl
  | some pr => obtain ⟨pu, rest⟩ := pr; rfl

@[simp] theorem dropPick_obstacles (s : GameState)
    (pick : Option (PowerUp × List PowerUp)) :
    (dropPick s pick).obstacles = s.obstacles := by
  cases pick with
  | none => rfl
  | some pr => obtain ⟨pu, rest⟩ := pr; rfl

@[simp] theorem popTail_snake (s : GameState) :
    (popTail s).snake = s.snake.dropLast := rfl

@[simp] theorem popTail_score (s : GameState) : (popTail s).score = s.score := rfl

@[simp] theorem popTail_food (s : GameState) : (popTail s).food = s.food := rfl

@[simp] theorem popTail_level (s : GameState) : (popTail s).level = s.level := rfl

@[simp] theorem popTail_thresh (s : GameState) :
    (popTail s).scoreForNextLevel = s.scoreForNextLevel := rfl

@[simp] theorem popTail_delay (s : GameState) : (popTail s).delay = s.delay := rfl

@[simp] theorem popTail_baseDelay (s : GameState) :
    (popTail s).baseDelay = s.baseDelay := rfl

@[simp] theorem popTail_active (s : GameState) :
    (popTail s).activePowerUp = s.activePowerUp := rfl

@[simp] theorem popTail_duration (s : GameState) :
    (popTail s).powerUpDuration = s.powerUpDuration := rfl

@[simp] theorem popTail_obstacles (s : GameState) :
    (popTail s).obstacles = s.obstacles := rfl

@[simp] theorem applyEff_snake (s1 : GameState) (pu : PowerUp) :
    (applyEff s1 pu).snake = s1.snake := by
  unfold applyEff; split <;> rfl

@[simp] theorem applyEff_food (s1 : GameState) (pu : PowerUp) :
    (applyEff s1 pu).food = s1.food := by
  unfold applyEff; split <;> rfl

@[simp] theorem applyEff_level (s1 : GameState) (pu : PowerUp) :
    (applyEff s1 pu).level = s1.level := by
  unfold applyEff; split <;> rfl

@[simp] theorem applyEff_thresh (s1 : GameState) (pu : PowerUp) :
    (applyEff s1 pu).scoreForNextLevel = s1.scoreForNextLevel := by
  unfold applyEff; split <;> rfl

@[simp] theorem applyEff_obstacles (s1 : GameState) (pu : PowerUp) :
    (applyEff s1 pu).obstacles = s1.obstacles := by
  unfold applyEff; split <;> rfl

@[simp] theorem applyEff_baseDelay (s1 : GameState) (pu : PowerUp) :
    (applyEff s1 pu).baseDelay = s1.baseDelay := by
  unfold applyEff; split <;> rfl

@[simp] theorem finishMove_snake (s : GameState) (nh : Cell) :
    (finishMove s nh).snake = nh :: s.snake := by
  simp only [finishMove]; split_ifs <;> rfl

@[simp] theorem finishMove_score (s : GameState) (nh : Cell) :
    (finishMove s nh).score = s.score := by
  simp only [finishMove]; split_ifs <;> rfl

@[simp] theorem finishMove_food (s : GameState) (nh : Cell) :
    (finishMove s nh).food = s.food := by
  simp only [finishMove]; split_ifs <;> rfl

@[simp] theorem finishMove_level (s : GameState) (nh : Cell) :
    (finishMove s nh).level = s.level := by
  simp only [finishMove]; split_ifs <;> rfl

@[simp] theorem finishMove_thresh (s : GameState) (nh : Cell) :
    (finishMove s nh).scoreForNextLevel = s.scoreForNextLevel := by
  simp only [finishMove]; split_ifs <;> rfl

@[simp] theorem finishMove_obstacles (s : GameState) (nh : Cell) :
    (finishMove s nh).obstacles = s.obstacles := by
  simp only [finishMove]; split_ifs <;> rfl

@[simp] theorem finishMove_baseDelay (s : GameState) (nh : Cell) :
    (finishMove s nh).baseDelay = s.baseDelay := by
  simp only [finishMove]; split_ifs <;> rfl

theorem finishMove_expire (s : GameState) (nh : Cell)
    (hdur : s.powerUpDuration = 1) :
    (finishMove s nh).delay = s.baseDelay ∧
    (finishMove s nh).activePowerUp = none := by
  simp only [finishMove, hdur]
  norm_num

theorem finishMove_keep (s : GameState) (nh : Cell)
    (hdur : s.powerUpDuration ≠ 1) :
    (finishMove s nh).delay = s.delay ∧
    (finishMove s nh).activePowerUp = s.activePowerUp := by
  simp only [finishMove]
  split_ifs with h1 h2
  · omega
  · exact ⟨rfl, rfl⟩
  · exact ⟨rfl, rfl⟩

theorem applyEff_ofSlow (s1 : GameState) (pu : PowerUp) (h : pu.ptype = .slow) :
    applyEff s1 pu =
      { s1 with delay := s1.baseDelay * mkRat 3 2, activePowerUp := some .slow,
                powerUpDuration := pu.duration, score := s1.score + 5 } := by
  unfold applyEff; rw [h]

theorem applyEff_ofBoost (s1 : GameState) (pu : PowerUp) (h : pu.ptype = .boost) :
    applyEff s1 pu =
      { s1 with delay := s1.baseDelay * mkRat 1 2, activePowerUp := some .boost,
                powerUpDuration := pu.duration, score := s1.score + 15 } := by
  unfold applyEff; rw [h]

theorem applyEff_score (s1 : GameState) (pu : PowerUp) (rest : List PowerUp) :
    (applyEff s1 pu).score = s1.score + puBonus (some (pu, rest)) := by
  obtain ⟨pt, dur, pos, tmr⟩ := pu
  cases pt <;> simp [applyEff, puBonus]

theorem eatFood_shape {g : Cfg} {o : Oracle} {s s1 : GameState}
    (h : eatFood g o s = some s1) :
    s1.snake = s.snake ∧ s1.direction = s.direction ∧
    s1.score = s.score + 10 ∧ s1.baseDelay = s.baseDelay ∧
    s1.activePowerUp = s.activePowerUp ∧
    s1.powerUpDuration = s.powerUpDuration := by
  unfold eatFood at h
  split at h
  · exact absurd h (by simp)
  split at h
  · exact absurd h (by simp)
  split at h
  · exact absurd h (by simp)
  obtain rfl := Option.some.inj h
  exact ⟨rfl, rfl, rfl, rfl, rfl, rfl⟩

theorem eatFood_levelup {g : Cfg} {o : Oracle} {s s1 : GameState}
    (h : eatFood g o s = some s1)
    (hthr : s.scoreForNextLevel ≤ s.score + 10) :
    s1.level = s.level + 1 ∧
    s1.scoreForNextLevel = s.scoreForNextLevel + 50 ∧
    generate_obstacles g s.snake s1.food (s.level + 1) o.obstacleRaws =
      some s1.obstacles := by
  unfold eatFood at h
  split at h
  · exact absurd h (by simp)
  next newFood hfood =>
  split at h
  · exact absurd h (by simp)
  next level1 thresh1 obst1 hlvl =>
  split at h
  · exact absurd h (by simp)
  next pus2 hspawn =>
  obtain rfl := Option.some.inj h
  unfold levelPhase at hlvl
  rw [if_pos hthr] at hlvl
  split at hlvl
  · exact absurd hlvl (by simp)
  next obs hobs =>
  obtain ⟨h1, h2, h3⟩ : s.level + 1 = level1 ∧ s.scoreForNextLevel + 50 = thresh1 ∧
      obs = obst1 := by
    have := Option.some.inj hlvl
    simp only [Prod.mk.injEq] at this
    exact ⟨this.1, this.2.1, this.2.2⟩
  subst h1; subst h2; subst h3
  exact ⟨rfl, rfl, hobs⟩

theorem eatFood_nolevelup {g : Cfg} {o : Oracle} {s s1 : GameState}
    (h : eatFood g o s = some s1)
    (hthr : s.score + 10 < s.scoreForNextLevel) :
    s1.level = s.level ∧ s1.scoreForNextLevel = s.scoreForNextLevel ∧
    s1.obstacles = s.obstacles := by
  unfold eatFood at h
  split at h
  · exact absurd h (by simp)
  next newFood hfood =>
  split at h
  · exact absurd h (by simp)
  next level1 thresh1 obst1 hlvl =>
  split at h
  · exact absurd h (by simp)
  next pus2 hspawn =>
  obtain rfl := Option.some.inj h
  unfold levelPhase at hlvl
  rw [if_neg (by omega)] at hlvl
  obtain ⟨h1, h2, h3⟩ : s.level = level1 ∧ s.scoreForNextLevel = thresh1 ∧
      s.obstacles = obst1 := by
    have := Option.some.inj hlvl
    simp only [Prod.mk.injEq] at this
    exact ⟨this.1, this.2.1, this.2.2⟩
  subst h1; subst h2; subst h3
  exact ⟨rfl, rfl, rfl⟩

theorem afterEat_trapHit {s1 : GameState} {pick : Option (PowerUp × List PowerUp)}
    {nh : Cell} {ate : Bool} {s' : GameState}
    (h : afterEat s1 pick nh ate = (s', .trapHit)) :
    s' = s1 ∧ ∃ pu rest, pick = some (pu, rest) ∧ pu.ptype = .trap := by
  cases pick with
  | none => simp only [afterEat] at h; simp at h
  | some pr =>
    obtain ⟨pu, rest⟩ := pr
    simp only [afterEat] at h
    split_ifs at h with htrap
    · simp only [Prod.mk.injEq] at h
      exact ⟨h.1.symm, pu, rest, rfl, htrap⟩
    · simp at h

theorem afterEat_moved {s1 : GameState} {pick : Option (PowerUp × List PowerUp)}
    {nh : Cell} {ate : Bool} {s' : GameState} {b : Bool}
    (h : afterEat s1 pick nh ate = (s', .moved b)) :
    b = ate ∧
      ((pick = none ∧ s' = finishMove s1 nh) ∨
       (∃ pu rest, pick = some (pu, rest) ∧ pu.ptype ≠ .trap ∧
          s' = finishMove (applyEff s1 pu) nh)) := by
  cases pick with
  | none =>
    simp only [afterEat] at h
    simp only [Prod.mk.injEq, MoveResult.moved.injEq] at h
    exact ⟨h.2.symm, Or.inl ⟨rfl, h.1.symm⟩⟩
  | some pr =>
    obtain ⟨pu, rest⟩ := pr
    simp only [afterEat] at h
    split_ifs at h with htrap
    · simp at h
    · simp only [Prod.mk.injEq, MoveResult.moved.injEq] at h
      exact ⟨h.2.symm, Or.inr ⟨pu, rest, rfl, htrap, h.1.symm⟩⟩

theorem moveCore_trapHit {g : Cfg} {o : Oracle} {s : GameState} {nh : Cell}
    {pick : Option (PowerUp × List PowerUp)} {s' : GameState}
    (h : moveCore g o s nh pick = some (s', .trapHit)) :
    (∃ pu rest, pick = some (pu, rest) ∧ pu.ptype = .trap) ∧
    ((nh = s.food ∧ eatFood g o (dropPick s pick) = some s') ∨
     (nh ≠ s.food ∧ s' = popTail (dropPick s pick))) := by
  unfold moveCore at h
  split_ifs at h with hfood
  · split at h
    · exact absurd h (by simp)
    next s1 heat =>
      obtain h2 := Option.some.inj h
      obtain ⟨rfl, hpu⟩ := afterEat_trapHit h2
      exact ⟨hpu, Or.inl ⟨hfood, heat⟩⟩
  · obtain h2 := Option.some.inj h
    obtain ⟨rfl, hpu⟩ := afterEat_trapHit h2
    exact ⟨hpu, Or.inr ⟨hfood, rfl⟩⟩

theorem moveCore_moved {g : Cfg} {o : Oracle} {s : GameState} {nh : Cell}
    {pick : Option (PowerUp × List PowerUp)} {s' : GameState} {b : Bool}
    (h : moveCore g o s nh pick = some (s', .moved b)) :
    ∃ s1,
      ((b = true ∧ nh = s.food ∧ eatFood g o (dropPick s pick) = some s1) ∨
       (b = false ∧ nh ≠ s.food ∧ s1 = popTail (dropPick s pick))) ∧
      ((pick = none ∧ s' = finishMove s1 nh) ∨
       (∃ pu rest, pick = some (pu, rest) ∧ pu.ptype ≠ .trap ∧
          s' = finishMove (applyEff s1 pu) nh)) := by
  unfold moveCore at h
  split_ifs at h with hfood
  · split at h
    · exact absurd h (by simp)
    next s1 heat =>
      obtain h2 := Option.some.inj h
      obtain ⟨hb, hrest⟩ := afterEat_moved h2
      exact ⟨s1, Or.inl ⟨hb, hfood, heat⟩, hrest⟩
  · obtain h2 := Option.some.inj h
    obtain ⟨hb, hrest⟩ := afterEat_moved h2
    exact ⟨popTail (dropPick s pick), Or.inr ⟨hb, hfood, rfl⟩, hrest⟩

theorem move_snake_eq {g : Cfg} {o : Oracle} {s : GameState}
    {out : GameState × MoveResult} (h : move_snake g o s = some out) :
    ∃ hd tl, s.snake = hd :: tl ∧
      moveCore g o s (hd.1 + s.direction.1, hd.2 + s.direction.2)
        (findPowerUp (hd.1 + s.direction.1, hd.2 + s.direction.2) s.powerUps) =
        some out := by
  unfold move_snake at h
  split at h
  · exact absurd h (by simp)
  next hd tl heq => exact ⟨hd, tl, heq, h⟩

theorem length_dropLast_cons (hd : Cell) (tl : List Cell) :
    ((hd :: tl).dropLast).length = tl.length := by
  simp [List.length_dropLast]

/-- Claim C1 (amended): on every non-trap tick with no food eaten the snake's
length is unchanged, and on every non-trap tick in which food is eaten the
length grows by one and the score grows by exactly 10 plus the bonus of any
slow/boost power-up consumed the same tick.  (The original claim is refuted
by `c1_counterexample`: on a tick where the food lies on a trap power-up the
+10 is awarded but `move_snake` returns before prepending the head, so the
length does not grow.) -/
theorem c1_length_and_score :
    (∀ (g : Cfg) (o : Oracle) (s s' : GameState),
        move_snake g o s = some (s', .moved false) →
        s'.snake.length = s.snake.length) ∧
    (∀ (g : Cfg) (o : Oracle) (s s' : GameState),
        move_snake g o s = some (s', .moved true) →
        s'.snake.length = s.snake.length + 1 ∧
        s'.score = s.score + 10 +
          puBonus (findPowerUp
            ((s.snake.headD (0, 0)).1 + s.direction.1,
             (s.snake.headD (0, 0)).2 + s.direction.2) s.powerUps)) := by
  constructor
  · intro g o s s' h
    obtain ⟨hd, tl, hsn, hmc⟩ := move_snake_eq h
    obtain ⟨s1, hfork, hfin⟩ := moveCore_moved hmc
    rcases hfork with ⟨hb, _⟩ | ⟨_, _, hs1⟩
    · exact absurd hb (by simp)
    · have hsnake1 : s1.snake = s.snake.dropLast := by
        rw [hs1]; simp
      rcases hfin with ⟨_, rfl⟩ | ⟨pu, rest, _, _, rfl⟩ <;>
        simp [hsnake1, hsn, length_dropLast_cons]
  · intro g o s s' h
    obtain ⟨hd, tl, hsn, hmc⟩ := move_snake_eq h
    obtain ⟨s1, hfork, hfin⟩ := moveCore_moved hmc
    rcases hfork with ⟨_, hfood, heat⟩ | ⟨hb, _⟩
    swap
    · exact absurd hb (by simp)
    have hshape := eatFood_shape heat
    have hsnake1 : s1.snake = s.snake := by
      rw [hshape.1]; simp
    have hscore1 : s1.score = s.score + 10 := by
      rw [hshape.2.2.1]; simp
    have hhd : s.snake.headD (0, 0) = hd := by rw [hsn]; rfl
    rcases hfin with ⟨hpick, rfl⟩ | ⟨pu, rest, hpick, _, rfl⟩
    · constructor
      · simp [hsnake1, hsn]
      · rw [finishMove_score, hscore1, hhd, hpick]
        simp [puBonus]
    · constructor
      · simp [hsnake1, hsn]
      · rw [finishMove_score, applyEff_score _ _ rest, hscore1, hhd, hpick]

/-- Counterexample to claim C1 as stated: in `stC1` the food cell `(5, 6)`
carries a trap power-up (reachable because `generate_food` never excludes
power-up cells).  The head moves onto it, the +10 food award is applied, but
`move_snake` returns `'trap'` before prepending the new head, so the snake's
length stays 3 instead of growing to 4. -/
theorem c1_counterexample :
    ((stC1.snake.headD (0, 0)).1 + stC1.direction.1,
     (stC1.snake.headD (0, 0)).2 + stC1.direction.2) = stC1.food ∧
    (move_snake cfg0 oFood stC1).map (fun p => p.2) = some .trapHit ∧
    (move_snake cfg0 oFood stC1).map (fun p => p.1.snake.length) =
      some stC1.snake.length ∧
    (move_snake cfg0 oFood stC1).map (fun p => p.1.score) =
      some (stC1.score + 10) := by
  with_unfolding_all decide

theorem c1_witness :
    ((mvOut cfg0 oEmpty baseState).1.snake.length = baseState.snake.length) ∧
    ((mvOut cfg0 oFood stW2).1.snake.length = stW2.snake.length + 1 ∧
     (mvOut cfg0 oFood stW2).1.score = stW2.score + 10 +
       puBonus (findPowerUp
         ((stW2.snake.headD (0, 0)).1 + stW2.direction.1,
          (stW2.snake.headD (0, 0)).2 + stW2.direction.2) stW2.powerUps)) :=
  ⟨c1_length_and_score.1 cfg0 oEmpty baseState _ (by with_unfolding_all decide),
   c1_length_and_score.2 cfg0 oFood stW2 _ (by with_unfolding_all decide)⟩

theorem moved_baseDelay {g : Cfg} {o : Oracle} {s : GameState} {nh : Cell}
    {pick : Option (PowerUp × List PowerUp)} {s1 : GameState} {b : Bool}
    (hfork : (b = true ∧ nh = s.food ∧
        eatFood g o (dropPick s pick) = some s1) ∨
      (b = false ∧ nh ≠ s.food ∧
        s1 = popTail (dropPick s pick))) :
    s1.baseDelay = s.baseDelay ∧ s1.powerUpDuration = s.powerUpDuration := by
  rcases hfork with ⟨_, _, heat⟩ | ⟨_, _, rfl⟩
  · have h := eatFood_shape heat
    constructor
    · rw [h.2.2.2.1]; simp
    · rw [h.2.2.2.2.2]; simp
  · constructor <;> simp

/-- Claim C2 (amended): the active-effect multiplier does not compose with
the 0.98 per-food decay.  A Boost pickup sets the delay to
`base_delay * 0.5`, discarding any decay accumulated in `delay`; and when the
effect's remaining duration reaches zero the delay is restored to the
original `base_delay`, again not to the decayed value.  (The original claim
is refuted by `c2_counterexample`.) -/
theorem c2_delay_effects :
    (∀ (g : Cfg) (o : Oracle) (s s' : GameState) (r : MoveResult)
        (pu : PowerUp) (rest : List PowerUp),
        findPowerUp ((s.snake.headD (0, 0)).1 + s.direction.1,
          (s.snake.headD (0, 0)).2 + s.direction.2) s.powerUps =
          some (pu, rest) →
        pu.ptype = .boost → pu.duration = 50 →
        move_snake g o s = some (s', r) →
        s'.delay = s.baseDelay * mkRat 1 2 ∧
        s'.activePowerUp = some .boost) ∧
    (∀ (g : Cfg) (o : Oracle) (s s' : GameState) (b : Bool),
        findPowerUp ((s.snake.headD (0, 0)).1 + s.direction.1,
          (s.snake.headD (0, 0)).2 + s.direction.2) s.powerUps = none →
        s.powerUpDuration = 1 →
        move_snake g o s = some (s', .moved b) →
        s'.delay = s.baseDelay ∧ s'.activePowerUp = none) := by
  constructor
  · intro g o s s' r pu rest hfp hboost hdur h
    obtain ⟨hd, tl, hsn, hmc⟩ := move_snake_eq h
    have hhd : s.snake.headD (0, 0) = hd := by rw [hsn]; rfl
    rw [hhd] at hfp
    cases r with
    | trapHit =>
      obtain ⟨⟨pu', rest', hpick, htrap⟩, _⟩ := moveCore_trapHit hmc
      rw [hfp] at hpick
      obtain ⟨h1, _⟩ := Prod.mk.injEq .. ▸ Option.some.inj hpick
      rw [← h1, hboost] at htrap
      exact absurd htrap (by simp)
    | moved b =>
      obtain ⟨s1, hfork, hfin⟩ := moveCore_moved hmc
      have hbase := (moved_baseDelay hfork).1
      rcases hfin with ⟨hpick, _⟩ | ⟨pu', rest', hpick, _, rfl⟩
      · rw [hfp] at hpick; exact absurd hpick (by simp)
      · rw [hfp] at hpick
        obtain hpr := Option.some.inj hpick
        have h1 : pu = pu' := congrArg Prod.fst hpr
        subst h1
        rw [applyEff_ofBoost _ _ hboost]
        have hkeep := finishMove_keep
          { s1 with delay := s1.baseDelay * mkRat 1 2,
                    activePowerUp := some .boost,
                    powerUpDuration := pu.duration, score := s1.score + 15 }
          (hd.1 + s.direction.1, hd.2 + s.direction.2) (by simp [hdur])
        rw [hkeep.1, hkeep.2]
        exact ⟨by simp [hbase], rfl⟩
  · intro g o s s' b hfp hdur h
    obtain ⟨hd, tl, hsn, hmc⟩ := move_snake_eq h
    have hhd : s.snake.headD (0, 0) = hd := by rw [hsn]; rfl
    rw [hhd] at hfp
    obtain ⟨s1, hfork, hfin⟩ := moveCore_moved hmc
    obtain ⟨hbase, hdur1⟩ := moved_baseDelay hfork
    rcases hfin with ⟨_, rfl⟩ | ⟨pu', rest', hpick, _, rfl⟩
    · have hexp := finishMove_expire s1
        (hd.1 + s.direction.1, hd.2 + s.direction.2) (by rw [hdur1, hdur])
      rw [hexp.1, hexp.2, hbase]
      exact ⟨rfl, rfl⟩
    · rw [hfp] at hpick; exact absurd hpick (by simp)

/-- Counterexample to claim C2 as stated: in `stC2` the base delay `3/20`
has decayed once (`delay = (3/20) * (98/100) = 147/1000`) and the head moves
onto a Boost power-up.  The claim predicts an effective delay of
`delay * 0.5 = 147/2000`; the code instead sets
`base_delay * 0.5 = 3/40 = 150/2000` (line 789 uses `self.base_delay`, not
`self.delay`). -/
theorem c2_counterexample :
    stC2.delay = stC2.baseDelay * mkRat 98 100 ∧
    (move_snake cfg0 oEmpty stC2).map (fun p => p.1.delay) =
      some (mkRat 3 40) ∧
    mkRat 3 40 ≠ stC2.delay * mkRat 1 2 := by
  with_unfolding_all decide

theorem c2_witness :
    (((mvOut cfg0 oEmpty stC2).1.delay = stC2.baseDelay * mkRat 1 2) ∧
     (mvOut cfg0 oEmpty stC2).1.activePowerUp = some .boost) ∧
    (((mvOut cfg0 oEmpty stW3).1.delay = stW3.baseDelay) ∧
     (mvOut cfg0 oEmpty stW3).1.activePowerUp = none) :=
  ⟨c2_delay_effects.1 cfg0 oEmpty stC2 _ (.moved false) ⟨.boost, 50, (5, 6), 200⟩
      [] (by with_unfolding_all decide) rfl rfl (by with_unfolding_all decide),
   c2_delay_effects.2 cfg0 oEmpty stW3 _ false (by with_unfolding_all decide)
      rfl (by with_unfolding_all decide)⟩

/-- Claim C3 (amended): level progression is evaluated only on food-eaten
ticks, immediately after the +10 food award and before any power-up bonus of
the same tick: if `score + 10` reaches the threshold the level increments,
the threshold rises by 50 and the obstacle set is regenerated; otherwise —
and on every tick without food, even one whose power-up bonus pushes the
score past the threshold — level, threshold and obstacles are unchanged.
(The original claim is refuted by `c3_counterexample`.) -/
theorem c3_level_progression :
    (∀ (g : Cfg) (o : Oracle) (s s' : GameState),
        move_snake g o s = some (s', .moved true) →
        s.scoreForNextLevel ≤ s.score + 10 →
        s'.level = s.level + 1 ∧
        s'.scoreForNextLevel = s.scoreForNextLevel + 50 ∧
        generate_obstacles g s.snake s'.food (s.level + 1) o.obstacleRaws =
          some s'.obstacles) ∧
    (∀ (g : Cfg) (o : Oracle) (s s' : GameState),
        move_snake g o s = some (s', .moved true) →
        s.score + 10 < s.scoreForNextLevel →
        s'.level = s.level ∧ s'.scoreForNextLevel = s.scoreForNextLevel ∧
        s'.obstacles = s.obstacles) ∧
    (∀ (g : Cfg) (o : Oracle) (s s' : GameState),
        move_snake g o s = some (s', .moved false) →
        s'.level = s.level ∧ s'.scoreForNextLevel = s.scoreForNextLevel ∧
        s'.obstacles = s.obstacles) := by
  refine ⟨?_, ?_, ?_⟩
  · intro g o s s' h hthr
    obtain ⟨hd, tl, hsn, hmc⟩ := move_snake_eq h
    obtain ⟨s1, hfork, hfin⟩ := moveCore_moved hmc
    rcases hfork with ⟨_, _, heat⟩ | ⟨hb, _⟩
    swap
    · exact absurd hb (by simp)
    have hlv := eatFood_levelup heat (by simpa using hthr)
    simp only [dropPick_snake, dropPick_level, dropPick_thresh] at hlv
    rcases hfin with ⟨_, rfl⟩ | ⟨pu, rest, _, _, rfl⟩ <;>
      simpa using hlv
  · intro g o s s' h hthr
    obtain ⟨hd, tl, hsn, hmc⟩ := move_snake_eq h
    obtain ⟨s1, hfork, hfin⟩ := moveCore_moved hmc
    rcases hfork with ⟨_, _, heat⟩ | ⟨hb, _⟩
    swap
    · exact absurd hb (by simp)
    have hlv := eatFood_nolevelup heat (by simpa using hthr)
    simp only [dropPick_level, dropPick_thresh, dropPick_obstacles] at hlv
    rcases hfin with ⟨_, rfl⟩ | ⟨pu, rest, _, _, rfl⟩ <;>
      simpa using hlv
  · intro g o s s' h
    obtain ⟨hd, tl, hsn, hmc⟩ := move_snake_eq h
    obtain ⟨s1, hfork, hfin⟩ := moveCore_moved hmc
    rcases hfork with ⟨hb, _⟩ | ⟨_, _, rfl⟩
    · exact absurd hb (by simp)
    rcases hfin with ⟨_, rfl⟩ | ⟨pu, rest, _, _, rfl⟩ <;> simp

/-- Counterexample to claim C3 as stated: in `stC3` the score is 95 and the
threshold 100; the head moves onto a Boost (+15, no food), bringing the
post-tick score to 110 ≥ 100, yet no level-up happens — the level check
(lines 760-764) runs only inside the `if ate_food:` branch and before the
power-up bonus. -/
theorem c3_counterexample :
    (move_snake cfg0 oEmpty stC3).map (fun p => p.1.score) = some 110 ∧
    (move_snake cfg0 oEmpty stC3).map (fun p => p.1.scoreForNextLevel) =
      some 100 ∧
    (move_snake cfg0 oEmpty stC3).map (fun p => p.1.level) = some 1 ∧
    stC3.level = 1 ∧ (100 : Int) ≤ 110 := by
  with_unfolding_all decide

theorem c3_witness :
    ((mvOut cfg0 oFood stW4).1.level = stW4.level + 1 ∧
     (mvOut cfg0 oFood stW4).1.scoreForNextLevel =
       stW4.scoreForNextLevel + 50 ∧
     generate_obstacles cfg0 stW4.snake (mvOut cfg0 oFood stW4).1.food
       (stW4.level + 1) oFood.obstacleRaws =
       some (mvOut cfg0 oFood stW4).1.obstacles) ∧
    ((mvOut cfg0 oFood stW2).1.level = stW2.level ∧
     (mvOut cfg0 oFood stW2).1.scoreForNextLevel = stW2.scoreForNextLevel ∧
     (mvOut cfg0 oFood stW2).1.obstacles = stW2.obstacles) ∧
    ((mvOut cfg0 oEmpty baseState).1.level = baseState.level ∧
     (mvOut cfg0 oEmpty baseState).1.scoreForNextLevel =
       baseState.scoreForNextLevel ∧
     (mvOut cfg0 oEmpty baseState).1.obstacles = baseState.obstacles) :=
  ⟨c3_level_progression.1 cfg0 oFood stW4 _ (by with_unfolding_all decide)
      (by decide),
   c3_level_progression.2.1 cfg0 oFood stW2 _ (by with_unfolding_all decide)
      (by decide),
   c3_level_progression.2.2 cfg0 oEmpty baseState _
      (by with_unfolding_all decide)⟩

/-- Claim C5 (amended): on every tick that does not trigger a trap — food or
no food, collision-ending or not — the new head cell (old head plus current
direction) is prepended to the body.  On a trap tick `move_snake` returns
before the prepend (line 795 precedes line 811), so the new head is not
added.  (The original claim, which demanded the prepend on trap ticks too,
is refuted by `c5_counterexample`.) -/
theorem c5_head_prepended :
    ∀ (g : Cfg) (o : Oracle) (s s' : GameState) (b : Bool),
      move_snake g o s = some (s', .moved b) →
      s'.snake.head? = some ((s.snake.headD (0, 0)).1 + s.direction.1,
        (s.snake.headD (0, 0)).2 + s.direction.2) := by
  intro g o s s' b h
  obtain ⟨hd, tl, hsn, hmc⟩ := move_snake_eq h
  have hhd : s.snake.headD (0, 0) = hd := by rw [hsn]; rfl
  obtain ⟨s1, _, hfin⟩ := moveCore_moved hmc
  rw [hhd]
  rcases hfin with ⟨_, rfl⟩ | ⟨pu, rest, _, _, rfl⟩ <;> simp

/-- Counterexample to claim C5 as stated: in `stC5` the head's next cell
`(5, 6)` holds a trap power-up; `move_snake` returns `'trap'` without
prepending, leaving the old head `(5, 5)` at the front (and the tail already
popped). -/
theorem c5_counterexample :
    ((stC5.snake.headD (0, 0)).1 + stC5.direction.1,
     (stC5.snake.headD (0, 0)).2 + stC5.direction.2) = ((5 : Int), (6 : Int)) ∧
    (move_snake cfg0 oEmpty stC5).map (fun p => p.2) = some .trapHit ∧
    (move_snake cfg0 oEmpty stC5).map (fun p => p.1.snake.head?) =
      some (some ((5 : Int), (5 : Int))) ∧
    (some ((5 : Int), (5 : Int)) : Option Cell) ≠ some ((5 : Int), (6 : Int)) := by
  with_unfolding_all decide

theorem c5_witness :
    (mvOut cfg0 oEmpty baseState).1.snake.head? =
      some ((baseState.snake.headD (0, 0)).1 + baseState.direction.1,
        (baseState.snake.headD (0, 0)).2 + baseState.direction.2) :=
  c5_head_prepended cfg0 oEmpty baseState _ false (by with_unfolding_all decide)

/-- Claim C6 (amended): a tick whose new head lies on a trap power-up ends
the run with a game-over outcome and leaves the active-effect field exactly
as it was (the trap sets no effect); the score is unchanged — unless the
food happens to lie on the same cell, in which case the +10 food award has
already been applied when the trap fires.  (The original claim's
unconditional "score unchanged" is refuted by `c6_counterexample`.) -/
theorem c6_trap_game_over :
    ∀ (g : Cfg) (o : Oracle) (s : GameState) (r : TickResult)
      (pu : PowerUp) (rest : List PowerUp),
      findPowerUp ((s.snake.headD (0, 0)).1 + s.direction.1,
        (s.snake.headD (0, 0)).2 + s.direction.2) s.powerUps =
        some (pu, rest) →
      pu.ptype = .trap →
      game_tick g o s = some r →
      isGameOver r = true ∧ tickResultEffect r = s.activePowerUp ∧
      tickResultScore r =
        (if ((s.snake.headD (0, 0)).1 + s.direction.1,
             (s.snake.headD (0, 0)).2 + s.direction.2) = s.food
         then s.score + 10 else s.score) := by
  intro g o s r pu rest hfp htrap htick
  unfold game_tick at htick
  split at htick
  · exact absurd htick (by simp)
  case h_2 s' hmv =>
    obtain rfl := Option.some.inj htick
    obtain ⟨hd, tl, hsn, hmc⟩ := move_snake_eq hmv
    have hhd : s.snake.headD (0, 0) = hd := by rw [hsn]; rfl
    rw [hhd] at hfp
    obtain ⟨_, hcase⟩ := moveCore_trapHit hmc
    rw [hhd]
    refine ⟨rfl, ?_, ?_⟩
    · rcases hcase with ⟨_, heat⟩ | ⟨_, rfl⟩
      · have h := (eatFood_shape heat).2.2.2.2.1
        simp only [tickResultEffect]
        rw [h]; simp
      · simp [tickResultEffect]
    · rcases hcase with ⟨hfood, heat⟩ | ⟨hfood, rfl⟩
      · rw [if_pos hfood]
        have h := (eatFood_shape heat).2.2.1
        simp only [tickResultScore]
        rw [h]; simp
      · rw [if_neg hfood]
        simp [tickResultScore]
  case h_3 s' ate hmv =>
    exfalso
    obtain ⟨hd, tl, hsn, hmc⟩ := move_snake_eq hmv
    have hhd : s.snake.headD (0, 0) = hd := by rw [hsn]; rfl
    rw [hhd] at hfp
    obtain ⟨s1, _, hfin⟩ := moveCore_moved hmc
    rcases hfin with ⟨hpick, _⟩ | ⟨pu', rest', hpick, hnt, _⟩
    · rw [hfp] at hpick; exact absurd hpick (by simp)
    · rw [hfp] at hpick
      obtain hpr := Option.some.inj hpick
      have h1 : pu = pu' := congrArg Prod.fst hpr
      rw [← h1, htrap] at hnt
      exact hnt rfl

/-- Counterexample to claim C6 as stated: in `stC1` the food and a trap
power-up share the cell `(5, 6)` ahead of the head.  The tick ends in game
over, but the final score is 10, not the pre-tick 0: the +10 food award ran
before the trap fired. -/
theorem c6_counterexample :
    findPowerUp ((5 : Int), (6 : Int)) stC1.powerUps =
      some (⟨.trap, 0, (5, 6), 200⟩, []) ∧
    (game_tick cfg0 oFood stC1).map isGameOver = some true ∧
    (game_tick cfg0 oFood stC1).map tickResultScore = some 10 ∧
    stC1.score = 0 ∧ (10 : Int) ≠ 0 := by
  with_unfolding_all decide

theorem c6_witness :
    isGameOver (tickOut cfg0 oEmpty stW5) = true ∧
    tickResultEffect (tickOut cfg0 oEmpty stW5) = stW5.activePowerUp ∧
    tickResultScore (tickOut cfg0 oEmpty stW5) =
      (if ((stW5.snake.headD (0, 0)).1 + stW5.direction.1,
           (stW5.snake.headD (0, 0)).2 + stW5.direction.2) = stW5.food
       then stW5.score + 10 else stW5.score) :=
  c6_trap_game_over cfg0 oEmpty stW5 _ ⟨.trap, 0, (5, 6), 200⟩ []
    (by with_unfolding_all decide) rfl (by with_unfolding_all decide)

/-- Claim C4 (confirmed): `check_collision` on the post-move state reports a
collision iff the head lies outside the arena interior, or equals a body
cell other than the head itself (`self.snake[1:]`), or equals an obstacle
cell. -/
theorem c4_check_collision_iff (g : Cfg) (head : Cell)
    (body obstacles : List Cell) :
    check_collision g (head :: body) obstacles = true ↔
      ¬inInterior g head ∨ head ∈ body ∨ head ∈ obstacles := by
  constructor
  · intro h
    simp only [check_collision] at h
    split_ifs at h with h1 h2 h3
    · left; unfold inInterior; omega
    · exact Or.inr (Or.inl h2)
    · exact Or.inr (Or.inr h3)
  · intro h
    simp only [check_collision]
    split_ifs with h1 h2 h3
    · rfl
    · rfl
    · rfl
    · exfalso
      rcases h with h | h | h
      · exact h (by unfold inInterior; omega)
      · exact h2 h
      · exact h3 h

/-- Claim C7 (confirmed): for every current direction, a key whose direction
is the exact 180-degree opposite leaves the stored direction unchanged,
while any other directional key becomes the stored direction (used by the
next advance). -/
theorem c7_direction_rule (k : Key) (c : Cell)
    (hc : c ∈ ([(0, 1), (0, -1), (1, 0), (-1, 0)] : List Cell)) :
    (keyDir k = (-c.1, -c.2) → newDirection c k = c) ∧
    (keyDir k ≠ (-c.1, -c.2) → newDirection c k = keyDir k) := by
  fin_cases hc <;> cases k <;> exact ⟨by decide, by decide⟩

theorem c7_witness :
    (keyDir Key.up = (-(((1 : Int), (0 : Int)) : Cell).1,
        -(((1 : Int), (0 : Int)) : Cell).2) →
      newDirection ((1 : Int), (0 : Int)) Key.up = ((1 : Int), (0 : Int))) ∧
    (keyDir Key.up ≠ (-(((1 : Int), (0 : Int)) : Cell).1,
        -(((1 : Int), (0 : Int)) : Cell).2) →
      newDirection ((1 : Int), (0 : Int)) Key.up = keyDir Key.up) :=
  c7_direction_rule Key.up (1, 0) (by decide)

theorem randint_bounds (a b raw : Int) (hab : a ≤ b) :
    a ≤ randint a b raw ∧ randint a b raw ≤ b := by
  unfold randint
  have h1 := Int.emod_nonneg raw (show b - a + 1 ≠ 0 by omega)
  have h2 := Int.emod_lt_of_pos raw (show 0 < b - a + 1 by omega)
  omega

/-- Claim C8 (confirmed): whenever `generate_food` returns a cell, that cell
lies strictly inside the arena interior and is on neither a snake cell nor
an obstacle cell, for every snake, obstacle set and draw sequence. -/
theorem c8_generate_food_valid (g : Cfg) (snake obstacles : List Cell)
    (raws : List (Int × Int)) (c : Cell)
    (hH : 3 ≤ g.boxHeight) (hW : 3 ≤ g.boxWidth)
    (h : generate_food g snake obstacles raws = some c) :
    inInterior g c ∧ c ∉ snake ∧ c ∉ obstacles := by
  induction raws with
  | nil => exact absurd h (by simp [generate_food])
  | cons r rest ih =>
    obtain ⟨ry, rx⟩ := r
    simp only [generate_food] at h
    split_ifs at h with hcond
    · obtain rfl := Option.some.inj h
      refine ⟨?_, hcond.1, hcond.2⟩
      have hy := randint_bounds (g.boxY + 1) (g.boxY + g.boxHeight - 2) ry
        (by omega)
      have hx := randint_bounds (g.boxX + 1) (g.boxX + g.boxWidth - 2) rx
        (by omega)
      unfold inInterior
      dsimp only
      omega
    · exact ih h

theorem c8_witness :
    inInterior cfg0 ((3 : Int), (3 : Int)) ∧
    ((3 : Int), (3 : Int)) ∉ baseState.snake ∧
    ((3 : Int), (3 : Int)) ∉ baseState.obstacles :=
  c8_generate_food_valid cfg0 baseState.snake baseState.obstacles [(0, 0)]
    (3, 3) (by decide) (by decide) (by decide)

theorem obstaclesLoop_length (g : Cfg) (snake : List Cell) (food : Cell) :
    ∀ (n : Nat) (acc : List Cell) (raws : List (Int × Int)) (obs : List Cell),
      obstaclesLoop g snake food n acc raws = some obs →
      obs.length = acc.length + n := by
  intro n
  induction n with
  | zero =>
    intro acc raws obs h
    simp only [obstaclesLoop] at h
    obtain rfl := Option.some.inj h
    simp
  | succ n ih =>
    intro acc raws obs h
    simp only [obstaclesLoop] at h
    split at h
    · exact absurd h (by simp)
    next c rest heq =>
      have hh := ih (acc ++ [c]) rest obs h
      simp only [List.length_append, List.length_cons, List.length_nil] at hh
      omega

/-- Claim C9 (confirmed): every successful run of `generate_obstacles` for
level `L` produces exactly `min(L - 1, 5)` obstacle cells, building the set
from empty (the function takes no previous obstacle set); and when a
level-up fires during `move_snake`, the post-tick obstacle set is exactly
that freshly generated set — `min(L, 5)` cells for the new level `L + 1` —
not an accumulation onto the previous set. -/
theorem c9_obstacle_regeneration :
    (∀ (g : Cfg) (snake : List Cell) (food : Cell) (level : Int)
        (raws : List (Int × Int)) (obs : List Cell),
        generate_obstacles g snake food level raws = some obs →
        obs.length = (min (level - 1) 5).toNat) ∧
    (∀ (g : Cfg) (o : Oracle) (s s' : GameState),
        move_snake g o s = some (s', .moved true) →
        s.scoreForNextLevel ≤ s.score + 10 →
        generate_obstacles g s.snake s'.food (s.level + 1) o.obstacleRaws =
          some s'.obstacles ∧
        s'.obstacles.length = (min s.level 5).toNat) := by
  constructor
  · intro g snake food level raws obs h
    unfold generate_obstacles at h
    have hh := obstaclesLoop_length g snake food _ [] raws obs h
    simpa using hh
  · intro g o s s' h hthr
    obtain ⟨hd, tl, hsn, hmc⟩ := move_snake_eq h
    obtain ⟨s1, hfork, hfin⟩ := moveCore_moved hmc
    rcases hfork with ⟨_, _, heat⟩ | ⟨hb, _⟩
    swap
    · exact absurd hb (by simp)
    have hlv := eatFood_levelup heat (by simpa using hthr)
    simp only [dropPick_snake, dropPick_level, dropPick_thresh] at hlv
    have hgen : generate_obstacles g s.snake s1.food (s.level + 1)
        o.obstacleRaws = some s1.obstacles := hlv.2.2
    have hlen : s1.obstacles.length = (min s.level 5).toNat := by
      unfold generate_obstacles at hgen
      have hh := obstaclesLoop_length g s.snake s1.food _ [] o.obstacleRaws
        s1.obstacles hgen
      simpa using hh
    rcases hfin with ⟨_, rfl⟩ | ⟨pu, rest, _, _, rfl⟩ <;>
      exact ⟨by simpa using hgen, by simpa using hlen⟩

theorem c9_witness :
    (([((4 : Int), (4 : Int)), (5, 4)] : List Cell).length =
      (min ((3 : Int) - 1) 5).toNat) ∧
    (generate_obstacles cfg0 stW4.snake (mvOut cfg0 oFood stW4).1.food
        (stW4.level + 1) oFood.obstacleRaws =
        some (mvOut cfg0 oFood stW4).1.obstacles ∧
      (mvOut cfg0 oFood stW4).1.obstacles.length = (min stW4.level 5).toNat) :=
  ⟨c9_obstacle_regeneration.1 cfg0 [(5, 5)] (8, 8) 3 [(0, 0), (1, 0)]
      [(4, 4), (5, 4)] (by decide),
   c9_obstacle_regeneration.2 cfg0 oFood stW4 _ (by with_unfolding_all decide)
      (by decide)⟩

/-- Claim C10 (confirmed): on a tick that eats no food and picks up no
power-up, moving the head onto the snake's current last tail segment is not
a collision: the tail is popped before the head is prepended, so the vacated
cell is absent from the body segments `1..end` the self-collision check
inspects (assuming distinct body cells, a tail inside the interior and off
the obstacles). -/
theorem c10_tail_chase_safe :
    ∀ (g : Cfg) (o : Oracle) (s : GameState) (t : Cell),
      s.snake.getLast? = some t →
      ((s.snake.headD (0, 0)).1 + s.direction.1,
       (s.snake.headD (0, 0)).2 + s.direction.2) = t →
      t ≠ s.food →
      findPowerUp t s.powerUps = none →
      s.snake.Nodup →
      inInterior g t →
      t ∉ s.obstacles →
      move_snake g o s = some (finishMove (popTail s) t, .moved false) ∧
      check_collision g (finishMove (popTail s) t).snake
        (finishMove (popTail s) t).obstacles = false := by
  intro g o s t hlast hnh hnf hfp hnd hint hobs
  obtain ⟨hd, tl, hsn⟩ : ∃ hd tl, s.snake = hd :: tl := by
    cases hsnake : s.snake with
    | nil => rw [hsnake] at hlast; simp at hlast
    | cons a b => exact ⟨a, b, rfl⟩
  have hhd : s.snake.headD (0, 0) = hd := by rw [hsn]; rfl
  rw [hhd] at hnh
  have hne : s.snake ≠ [] := by rw [hsn]; simp
  have hmv : move_snake g o s = some (finishMove (popTail s) t, .moved false) := by
    simp only [move_snake, hsn, hnh, hfp]
    unfold moveCore
    rw [if_neg hnf]
    rfl
  refine ⟨hmv, ?_⟩
  have hsnake' : (finishMove (popTail s) t).snake = t :: s.snake.dropLast := by
    simp
  have hobst' : (finishMove (popTail s) t).obstacles = s.obstacles := by simp
  rw [hsnake', hobst']
  have hnotin : t ∉ s.snake.dropLast := by
    have hsplit : s.snake.dropLast ++ [t] = s.snake := by
      have hgl : s.snake.getLast hne = t := by
        have := List.getLast?_eq_getLast s.snake hne
        rw [this] at hlast
        exact Option.some.inj hlast
      rw [← hgl]
      exact List.dropLast_append_getLast hne
    have hnd2 : (s.snake.dropLast ++ [t]).Nodup := by rw [hsplit]; exact hnd
    have hdisj := (List.nodup_append.mp hnd2).2.2
    intro hmem
    exact hdisj hmem (by simp)
  simp only [check_collision]
  rw [if_neg (by unfold inInterior at hint; omega), if_neg hnotin,
    if_neg hobs]

theorem c10_witness :
    move_snake cfg0 oEmpty stW10 =
      some (finishMove (popTail stW10) ((4 : Int), (5 : Int)), .moved false) ∧
    check_collision cfg0
      (finishMove (popTail stW10) ((4 : Int), (5 : Int))).snake
      (finishMove (popTail stW10) ((4 : Int), (5 : Int))).obstacles = false :=
  c10_tail_chase_safe cfg0 oEmpty stW10 (4, 5) (by decide) (by decide)
    (by decide) (by decide) (by decide) (by decide) (by decide)

end SnakeGame
